import Mathlib

/-!
Shallow embedding of the GMSA admission webhook's decision engine
(`webhook.go`, both revisions present in the source tree).

Pods are modelled by their annotation map (an association list, matching a
Go `map[string]string` where indexing an absent key yields `""`), their
container name list, their service account and namespace.  The two external
capabilities (the authorization gate and the credential store) are modelled
as function-valued parameters.  Go runtime panics (out-of-range string
slicing, writing into a nil map) are modelled by `Option`, with `none`
standing for an aborted (panicking) execution.
-/

namespace GMSAWebhook

/-- Suffix of the per-container annotation holding the contents of the GMSA
credential spec (webhook.go, constant block). -/
def gMSAContainerSpecContentsAnnotationKeySuffix : String :=
  ".container.alpha.windows.kubernetes.io/gmsa-credential-spec"

/-- Pod-level annotation key holding the contents of the GMSA credential spec. -/
def gMSAPodSpecContentsAnnotationKey : String :=
  "pod.alpha.windows.kubernetes.io/gmsa-credential-spec"

/-- Suffix of the per-container annotation naming the GMSA credential spec. -/
def gMSAContainerSpecNameAnnotationKeySuffix : String :=
  gMSAContainerSpecContentsAnnotationKeySuffix ++ "-name"

/-- Pod-level annotation key naming the GMSA credential spec. -/
def gMSAPodSpecNameAnnotationKey : String :=
  gMSAPodSpecContentsAnnotationKey ++ "-name"

/-- The constant `notFound` used by `isNotFoundError` (second revision). -/
def notFound : String := "not found"

/-- A pod, reduced to the fields the decision engine reads: the annotation
map, the ordered container name list, the service account name and the
namespace. -/
structure Pod where
  annotationList : List (String × String)
  containers : List String
  serviceAccountName : String
  ns : String
deriving DecidableEq, Repr

/-- Presence-aware read of a pod annotation, i.e. Go's
`v, present := pod.Annotations[key]`. -/
def annLookup (pod : Pod) (key : String) : Option String :=
  pod.annotationList.lookup key

/-- Go's plain map indexing `pod.Annotations[key]`, which yields the zero
value `""` for an absent key. -/
def annRead (pod : Pod) (key : String) : String :=
  (annLookup pod key).getD ""

/-- A (nameKey, contentsKey) pair of GMSA annotation keys. -/
structure AnnotationPair where
  nameKey : String
  contentsKey : String
deriving DecidableEq, Repr

/-- The successive (nameKey, contentsKey) pairs that
`iterateOverGMSAAnnotationPairs` (first revision) feeds to its callback, and
that `validateAndMutateCreateRequest` / `validateUpdateRequest` (second
revision) process in the same order: the pod-level pair first, then one pair
per container, in container-list order. -/
def iterateOverGMSAAnnotationPairs (pod : Pod) : List AnnotationPair :=
  ⟨gMSAPodSpecNameAnnotationKey, gMSAPodSpecContentsAnnotationKey⟩ ::
    pod.containers.map fun name =>
      ⟨name ++ gMSAContainerSpecNameAnnotationKeySuffix,
        name ++ gMSAContainerSpecContentsAnnotationKeySuffix⟩

/-- One character of `strings.NewReplacer("~", "~0", "/", "~1")`'s single
left-to-right pass: `~` becomes `~0`, `/` becomes `~1`, anything else is
copied. -/
def jsonPatchEscapeChar (c : Char) : List Char :=
  if c = '~' then ['~', '0']
  else if c = '/' then ['~', '1']
  else [c]

/-- Character-list version of `jsonPatchEscaper.Replace`. -/
def jsonPatchEscapeChars : List Char → List Char
  | [] => []
  | c :: rest => jsonPatchEscapeChar c ++ jsonPatchEscapeChars rest

/-- `jsonPatchEscaper.Replace` (webhook.go line 41): JSON-Patch escaping of a
key for embedding in a JSON pointer path, per RFC 6901 section 3. -/
def jsonPatchEscaperReplace (s : String) : String :=
  ⟨jsonPatchEscapeChars s.data⟩

/-- The inverse direction of RFC 6901 escaping: `~1` becomes `/`, `~0`
becomes `~`, scanning left to right. -/
def jsonPatchUnescapeChars : List Char → List Char
  | [] => []
  | [c] => [c]
  | c :: d :: rest =>
    if c = '~' ∧ d = '0' then '~' :: jsonPatchUnescapeChars rest
    else if c = '~' ∧ d = '1' then '/' :: jsonPatchUnescapeChars rest
    else c :: jsonPatchUnescapeChars (d :: rest)

/-- String version of the unescaping pass. -/
def jsonPatchUnescape (s : String) : String :=
  ⟨jsonPatchUnescapeChars s.data⟩

/-- A `podAdmissionError`, reduced to its HTTP code and message (the embedded
pod pointer is only used for logging). -/
structure AdmissionError where
  code : Nat
  msg : String
deriving DecidableEq, Repr

/-- One JSON patch operation, as built by the mutating create path. -/
structure Patch where
  op : String
  path : String
  value : String
deriving DecidableEq, Repr

/-- An `AdmissionResponse`, reduced to the fields the engine sets: the
`Allowed` flag and the optional patch list (`none` models the `Patch` field
being left unset, which happens exactly when no patch operations were
produced). -/
structure AdmissionResponse where
  allowed : Bool
  patch : Option (List Patch)
deriving DecidableEq, Repr

/-- The `kubeClientInterface` consumed by the first revision's webhook:
`isAuthorizedToUseCredSpec(serviceAccountName, namespace, credSpecName)`
returns (authorized, reason); `retrieveCredSpecContents(credSpecName)`
returns the contents or an error carrying an HTTP code and a message. -/
structure KubeClient where
  isAuthorizedToUseCredSpec : String → String → String → Bool × String
  retrieveCredSpecContents : String → Except AdmissionError String

/-- The denial message built by `mutateCreateRequest` /
`validateCreateRequest` / `validateAndInlineSingleGMSASpec` when a content
annotation is pre-set on an inbound pod. -/
def presetContentMsg (contentsKey : String) : String :=
  "cannot pre-set a pod\x27s gMSA content annotation (annotation " ++
    contentsKey ++ " present)"

/-- Processing of one (nameKey, contentsKey) pair by `mutateCreateRequest`
(first revision, lines 273-295): a pre-set content annotation is rejected
with 403 before anything else; otherwise a present, non-empty name
annotation triggers a store fetch whose result is inlined as one JSON patch
operation with an escaped path. -/
def mutateSinglePair (client : KubeClient) (pod : Pod) (pair : AnnotationPair) :
    Except AdmissionError (List Patch) :=
  match annLookup pod pair.contentsKey with
  | some _ => .error ⟨403, presetContentMsg pair.contentsKey⟩
  | none =>
    match annLookup pod pair.nameKey with
    | some credSpecName =>
      if credSpecName = "" then .ok []
      else
        match client.retrieveCredSpecContents credSpecName with
        | .error e => .error e
        | .ok contents =>
          .ok [⟨"add",
                "/metadata/annotations/" ++ jsonPatchEscaperReplace pair.contentsKey,
                contents⟩]
    | none => .ok []

/-- The iteration of `mutateCreateRequest` over the annotation pairs: the
callback keeps the first error and accumulates patches in iteration order
(once `err` is set the Go callback returns immediately on every later pair). -/
def mutatePairs (client : KubeClient) (pod : Pod) :
    List AnnotationPair → Except AdmissionError (List Patch)
  | [] => .ok []
  | p :: rest =>
    match mutateSinglePair client pod p with
    | .error e => .error e
    | .ok ps =>
      match mutatePairs client pod rest with
      | .error e => .error e
      | .ok rs => .ok (ps ++ rs)

/-- `mutateCreateRequest` (first revision): processes every annotation pair,
returns a denial on the first error, and otherwise an allowed response whose
patch field is set only when at least one patch operation was produced. -/
def mutateCreateRequest (client : KubeClient) (pod : Pod) :
    Except AdmissionError AdmissionResponse :=
  match mutatePairs client pod (iterateOverGMSAAnnotationPairs pod) with
  | .error e => .error e
  | .ok patches =>
    .ok ⟨true, if patches.length ≠ 0 then some patches else none⟩

/-- The denial message built by `validateCreateRequest` when the service
account is not authorized, with the gate's reason appended when non-empty. -/
def saDenialMsg (serviceAccountName credSpecName reason : String) : String :=
  let base := "service account " ++ serviceAccountName ++
    " does not have \x60use\x60 access to the " ++ credSpecName ++ " gMSA cred spec"
  if reason = "" then base else base ++ ", reason : " ++ reason

/-- Processing of one pair by `validateCreateRequest` (first revision, lines
226-264): a present non-empty name annotation triggers the authorization
check, then, when the content annotation is also present, a fetch and a
comparison against the expected contents; when the name annotation is absent
or empty, a present content annotation is rejected with 403. -/
def validateSinglePair (client : KubeClient) (pod : Pod) (ns : String)
    (pair : AnnotationPair) : Option AdmissionError :=
  match annLookup pod pair.nameKey with
  | some credSpecName =>
    if credSpecName = "" then
      match annLookup pod pair.contentsKey with
      | some _ => some ⟨403, presetContentMsg pair.contentsKey⟩
      | none => none
    else
      match client.isAuthorizedToUseCredSpec pod.serviceAccountName ns credSpecName with
      | (false, reason) =>
        some ⟨403, saDenialMsg pod.serviceAccountName credSpecName reason⟩
      | (true, _) =>
        match annLookup pod pair.contentsKey with
        | some credSpecContents =>
          match client.retrieveCredSpecContents credSpecName with
          | .error e => some e
          | .ok expectedContents =>
            if credSpecContents = expectedContents then none
            else some ⟨403,
              "cred spec contained in annotation " ++ pair.contentsKey ++
                " does not match the contents of GMSA " ++ credSpecName⟩
        | none => none
  | none =>
    match annLookup pod pair.contentsKey with
    | some _ => some ⟨403, presetContentMsg pair.contentsKey⟩
    | none => none

/-- The first-error iteration of `validateCreateRequest` over the pairs. -/
def validatePairs (client : KubeClient) (pod : Pod) (ns : String) :
    List AnnotationPair → Option AdmissionError
  | [] => none
  | p :: rest =>
    match validateSinglePair client pod ns p with
    | some e => some e
    | none => validatePairs client pod ns rest

/-- `validateCreateRequest` (first revision). -/
def validateCreateRequest (client : KubeClient) (pod : Pod) (ns : String) :
    Except AdmissionError AdmissionResponse :=
  match validatePairs client pod ns (iterateOverGMSAAnnotationPairs pod) with
  | some e => .error e
  | none => .ok ⟨true, none⟩

/-- `assertAnnotationsUnchanged` (both revisions): compares the two pods'
values at `key` with Go map indexing (absent keys read as `""`) and returns
a 403 error on mismatch. -/
def assertAnnotationsUnchanged (pod oldPod : Pod) (key : String) :
    Option AdmissionError :=
  if annRead pod key = annRead oldPod key then none
  else some ⟨403,
    "cannot update an existing pod\x27s gMSA annotation (annotation " ++
      key ++ " changed)"⟩

/-- The first-error iteration of `validateUpdateRequest` over the pairs of
the (new) pod: for each pair the name key is checked, then the contents key. -/
def validateUpdatePairs (pod oldPod : Pod) :
    List AnnotationPair → Option AdmissionError
  | [] => none
  | p :: rest =>
    match assertAnnotationsUnchanged pod oldPod p.nameKey with
    | some e => some e
    | none =>
      match assertAnnotationsUnchanged pod oldPod p.contentsKey with
      | some e => some e
      | none => validateUpdatePairs pod oldPod rest

/-- `validateUpdateRequest` (both revisions; the two revisions fail on the
same first mismatching key and otherwise allow with no patch). -/
def validateUpdateRequest (pod oldPod : Pod) :
    Except AdmissionError AdmissionResponse :=
  match validateUpdatePairs pod oldPod (iterateOverGMSAAnnotationPairs pod) with
  | some e => .error e
  | none => .ok ⟨true, none⟩

/-- The admission request operations the engine dispatches on. -/
inductive AdmissionOperation
  | create
  | update
  | other (name : String)
deriving DecidableEq, Repr

/-- The two webhook endpoints of the first revision. -/
inductive WebhookOperation
  | validate
  | mutate
deriving DecidableEq, Repr

/-- An `AdmissionRequest`, reduced to the fields `validateOrMutate` reads.
The raw objects are modelled post-JSON-decoding: `none` stands for a decode
failure of `unmarshallPod`. -/
structure AdmissionRequest where
  kind : String
  operation : AdmissionOperation
  object : Option Pod
  oldObject : Option Pod
  ns : String

/-- `validateOrMutate` (first revision, lines 175-211): kind check, pod
decoding, then dispatch on the request operation and the endpoint.  The
unreachable default endpoint branch of the Go `switch` (a `panic`) cannot be
hit since `WebhookOperation` has exactly the two constructors. -/
def validateOrMutate (client : KubeClient) (request : AdmissionRequest)
    (op : WebhookOperation) : Except AdmissionError AdmissionResponse :=
  if request.kind ≠ "Pod" then
    .error ⟨400, "expected a pod object, got a " ++ request.kind⟩
  else
    match request.object with
    | none => .error ⟨400, "unable to unmarshall pod JSON object"⟩
    | some pod =>
      match request.operation with
      | .create =>
        match op with
        | .validate => validateCreateRequest client pod request.ns
        | .mutate => mutateCreateRequest client pod
      | .update =>
        match op with
        | .validate =>
          match request.oldObject with
          | none => .error ⟨400, "unable to unmarshall pod JSON object"⟩
          | some oldPod => validateUpdateRequest pod oldPod
        | .mutate => .ok ⟨true, none⟩
      | .other o => .error ⟨400, "unpexpected operation " ++ o⟩

/-- `isNotFoundError` (second revision, lines 738-741): Go evaluates
`msg[len(msg)-len(notFound):] == notFound`.  When the message is shorter
than `notFound` the slice lower bound is negative and the program panics,
modelled by `none`. -/
def isNotFoundError (msg : String) : Option Bool :=
  if notFound.length ≤ msg.length then
    some (msg.drop (msg.length - notFound.length) = notFound)
  else
    none

/-- The copy of the service-account user-info extra attributes performed by
`isAuthorizedToReadCredSpec` (second revision, lines 703-706): the target
map is declared with `var extra map[string]authorizationv1.ExtraValue` and
never allocated, so the first write into it panics; the copy succeeds only
when there is nothing to copy. -/
def copyExtra : List (String × List String) → Option (List (String × List String))
  | [] => some []
  | _ :: _ => none

/-- A `user.Info` identity, reduced to the fields read by
`isAuthorizedToReadCredSpec`. -/
structure UserInfo where
  name : String
  uid : String
  groups : List String
  extra : List (String × List String)

/-- Modelled from the external `k8s.io/kubernetes/pkg/serviceaccount`
library: `serviceaccount.UserInfo(namespace, name, "")` returns a
`user.DefaultInfo` whose `Extra` field is nil (empty). -/
def serviceaccountUserInfo (ns name : String) : UserInfo :=
  ⟨"system:serviceaccount:" ++ ns ++ ":" ++ name, "",
    ["system:serviceaccounts", "system:serviceaccounts:" ++ ns], []⟩

/-- The status of a `LocalSubjectAccessReview` response. -/
structure SARStatus where
  allowed : Bool
  denied : Bool
  reason : String
deriving DecidableEq, Repr

/-- The core kube client consumed by the second revision, reduced to the one
call the engine makes: creating a `LocalSubjectAccessReview` for the given
(namespace, user name, groups, uid, extra, credSpecName) and getting back
its status, or a transport/API error message. -/
structure CoreClient where
  createLocalSAR :
    String → String → List String → String → List (String × List String) →
      String → Except String SARStatus

/-- `isAuthorizedToReadCredSpec` (second revision, lines 699-733),
parametrized by the identity: the extra-attribute copy runs first (and
panics on a non-empty extra map, hence the `Option`); a transport/API error
of the review call yields (false, "could not check authz access: ..."),
otherwise the result is (Allowed && !Denied, Reason). -/
def isAuthorizedToReadCredSpec (core : CoreClient) (userInfo : UserInfo)
    (pod : Pod) (credSpecName : String) : Option (Bool × String) :=
  match copyExtra userInfo.extra with
  | none => none
  | some extra =>
    match core.createLocalSAR pod.ns userInfo.name userInfo.groups userInfo.uid
        extra credSpecName with
    | .error e => some (false, "could not check authz access: " ++ e)
    | .ok status => some (status.allowed && !status.denied, status.reason)

/-- A GMSA credential spec custom resource, reduced to its single expected
field `credspec` (the `crdContentsField`); `none` models an absent field.
Per the data model the field's value is the credential spec content string. -/
structure CredSpecObj where
  credspec : Option String
deriving DecidableEq, Repr

/-- The dynamic kube client of the second revision, reduced to the one call
the engine makes: getting the `gmsacredentialspecs` custom resource with the
given name, or a transport/API error message. -/
structure DynClient where
  getCredSpec : String → Except String CredSpecObj

/-- Models `json.Marshal` applied to a string value holding no character
that needs JSON escaping: the value is wrapped in double quotes. -/
def jsonMarshalString (s : String) : String := "\x22" ++ s ++ "\x22"

/-- The denial message built by `validateAndInlineSingleGMSASpec` when the
service account is not authorized, with the gate's reason appended when
non-empty. -/
def svcAcctDenialMsg (credSpecName reason : String) : String :=
  let base := "the service account used for this pod does not have \x60use\x60 access to the " ++
    credSpecName ++ " gMSA cred spec"
  if reason = "" then base else base ++ ", reason : " ++ reason

/-- `validateAndInlineSingleGMSASpec` (second revision, lines 638-696),
parametrized by the two clients and the identity: rejects a pre-set content
annotation (403) before anything else; skips the pair when the name
annotation is absent or empty; denies (403) when not authorized, surfacing
the gate's reason; classifies a store error via `isNotFoundError` into 404
or 500 (or panics, `none`); rejects a missing or empty `credspec` field with
417; otherwise appends one patch operation whose path embeds the raw
(unescaped) contents key and whose value is the JSON-marshalled field. -/
def validateAndInlineSingleGMSASpec (core : CoreClient) (userInfo : UserInfo)
    (dyn : DynClient) (pod : Pod) (nameKey contentsKey : String)
    (patches : List Patch) : Option (Except AdmissionError (List Patch)) :=
  match annLookup pod contentsKey with
  | some _ => some (.error ⟨403, presetContentMsg contentsKey⟩)
  | none =>
    match annLookup pod nameKey with
    | none => some (.ok patches)
    | some credSpecName =>
      if credSpecName = "" then some (.ok patches)
      else
        match isAuthorizedToReadCredSpec core userInfo pod credSpecName with
        | none => none
        | some (authorized, reason) =>
          if !authorized then
            some (.error ⟨403, svcAcctDenialMsg credSpecName reason⟩)
          else
            match dyn.getCredSpec credSpecName with
            | .error errMsg =>
              match isNotFoundError errMsg with
              | none => none
              | some true =>
                some (.error ⟨404, "cred spec " ++ credSpecName ++ " does not exist"⟩)
              | some false =>
                some (.error ⟨500,
                  "unable to retrieve the contents of cred spec " ++ credSpecName ++
                    ": " ++ errMsg⟩)
            | .ok credSpec =>
              match credSpec.credspec with
              | none =>
                some (.error ⟨417,
                  "cred spec " ++ credSpecName ++ " does not have a credspec key"⟩)
              | some contents =>
                if contents = "" then
                  some (.error ⟨417,
                    "cred spec " ++ credSpecName ++ " does not have a credspec key"⟩)
                else
                  some (.ok (patches ++
                    [⟨"add", "/metadata/annotations/" ++ contentsKey,
                      jsonMarshalString contents⟩]))

/-- The pair-by-pair loop of `validateAndMutateCreateRequest` (second
revision): the pod-level pair first, then per-container pairs, aborting on
the first error (or panic). -/
def validateAndMutatePairs (core : CoreClient) (userInfo : UserInfo)
    (dyn : DynClient) (pod : Pod) :
    List AnnotationPair → List Patch → Option (Except AdmissionError (List Patch))
  | [], acc => some (.ok acc)
  | p :: rest, acc =>
    match validateAndInlineSingleGMSASpec core userInfo dyn pod p.nameKey
        p.contentsKey acc with
    | none => none
    | some (.error e) => some (.error e)
    | some (.ok acc') => validateAndMutatePairs core userInfo dyn pod rest acc'

/-- `validateAndMutateCreateRequest` (second revision, lines 599-633). -/
def validateAndMutateCreateRequest (core : CoreClient) (userInfo : UserInfo)
    (dyn : DynClient) (pod : Pod) :
    Option (Except AdmissionError AdmissionResponse) :=
  match validateAndMutatePairs core userInfo dyn pod
      (iterateOverGMSAAnnotationPairs pod) [] with
  | none => none
  | some (.error e) => some (.error e)
  | some (.ok patches) =>
    some (.ok ⟨true, if patches.length ≠ 0 then some patches else none⟩)

instance {ε α : Type} [DecidableEq ε] [DecidableEq α] :
    DecidableEq (Except ε α) := fun a b =>
  match a, b with
  | .error e, .error e' =>
    if h : e = e' then .isTrue (by rw [h]) else .isFalse (by simp [h])
  | .error _, .ok _ => .isFalse (by simp)
  | .ok _, .error _ => .isFalse (by simp)
  | .ok v, .ok v' =>
    if h : v = v' then .isTrue (by rw [h]) else .isFalse (by simp [h])

/-! ### Concrete fixtures for counterexamples and witnesses -/

/-- A first-revision client whose store always fails with a 500 error. -/
def storeFailClient : KubeClient :=
  ⟨fun _ _ _ => (true, ""), fun _ => .error ⟨500, "boom"⟩⟩

/-- A first-revision client that authorizes everything and resolves every
credential spec name to a distinct content string. -/
def storeOkClient : KubeClient :=
  ⟨fun _ _ _ => (true, ""), fun name => .ok ("contents of " ++ name)⟩

/-- A pod whose pod-level pair triggers a store failure before the loop
reaches the container pair whose content annotation is pre-set. -/
def presetPodWithEarlierFailure : Pod :=
  ⟨[(gMSAPodSpecNameAnnotationKey, "spec1"),
    ("web" ++ gMSAContainerSpecContentsAnnotationKeySuffix, "boo")],
    ["web"], "sa", "ns"⟩

/-- A pod whose only annotation is a pre-set pod-level content annotation. -/
def presetOnlyPod : Pod :=
  ⟨[(gMSAPodSpecContentsAnnotationKey, "boo")], [], "sa", "ns"⟩

/-- An updated pod carrying the pod-level name annotation with the empty
string as its value. -/
def updNewPod : Pod := ⟨[(gMSAPodSpecNameAnnotationKey, "")], [], "sa", "ns"⟩

/-- The prior pod of the update: no annotations at all. -/
def updOldPod : Pod := ⟨[], [], "sa", "ns"⟩

/-- A pod requesting the `spec1` credential spec at pod level. -/
def createPod : Pod := ⟨[(gMSAPodSpecNameAnnotationKey, "spec1")], [], "sa", "ns"⟩

/-- A pod with no annotations at all. -/
def emptyPod : Pod := ⟨[], [], "sa", "ns"⟩

/-- A pod with one container and both the pod-level and the container-level
name annotations set. -/
def fullPod : Pod :=
  ⟨[(gMSAPodSpecNameAnnotationKey, "spec1"),
    ("nginx0" ++ gMSAContainerSpecNameAnnotationKeySuffix, "spec2")],
    ["nginx0"], "sa", "ns"⟩

/-- A second-revision core client whose access reviews always allow. -/
def coreAllowClient : CoreClient := ⟨fun _ _ _ _ _ _ => .ok ⟨true, false, ""⟩⟩

/-- A second-revision core client whose access reviews always fail at the
transport level. -/
def coreFailClient : CoreClient :=
  ⟨fun _ _ _ _ _ _ => .error "dial tcp: connection refused"⟩

/-- A second-revision dynamic client that resolves every credential spec. -/
def dynOkClient : DynClient := ⟨fun _ => .ok ⟨some "credspec-contents"⟩⟩

/-- A second-revision dynamic client failing with a one-character message,
shorter than the string "not found". -/
def dynShortErrClient : DynClient := ⟨fun _ => .error "x"⟩

/-- A second-revision dynamic client failing with a standard not-found
message. -/
def dynNotFoundClient : DynClient :=
  ⟨fun _ => .error "gmsacredentialspecs.windows.k8s.io \x22spec1\x22 not found"⟩

/-- The identity of `createPod`'s service account. -/
def defaultUserInfo : UserInfo := serviceaccountUserInfo "ns" "sa"

/-- An updated pod with one container and no annotations. -/
def newPodW : Pod := ⟨[], ["web"], "sa", "ns"⟩

/-- A prior pod with an extra container `legacy`, absent from the updated
pod, and a name annotation for it. -/
def oldPodW : Pod :=
  ⟨[("legacy" ++ gMSAContainerSpecNameAnnotationKeySuffix, "spec9")],
    ["web", "legacy"], "sa", "ns"⟩

/-- Like `oldPodW` but with a different value for the `legacy` container's
name annotation. -/
def oldPodW2 : Pod :=
  ⟨[("legacy" ++ gMSAContainerSpecNameAnnotationKeySuffix, "specX")],
    ["web", "legacy"], "sa", "ns"⟩

/-- A pod with one container and some annotations, for the resolver witness. -/
def resolverPodA : Pod :=
  ⟨[(gMSAPodSpecNameAnnotationKey, "spec1")], ["nginx0"], "sa", "ns"⟩

/-- A pod with the same container list as `resolverPodA` but different
annotations, service account and namespace. -/
def resolverPodB : Pod := ⟨[], ["nginx0"], "other-sa", "other-ns"⟩

/-! ### Helper lemmas -/

theorem unescapeChars_cons_ne (c : Char) (l : List Char) (h : c ≠ '~') :
    jsonPatchUnescapeChars (c :: l) = c :: jsonPatchUnescapeChars l := by
  cases l with
  | nil => rfl
  | cons d rest => simp [jsonPatchUnescapeChars, h]

theorem unescapeChars_escapeChars (l : List Char) :
    jsonPatchUnescapeChars (jsonPatchEscapeChars l) = l := by
  induction l with
  | nil => rfl
  | cons c rest ih =>
    by_cases h1 : c = '~'
    · subst h1
      simp [jsonPatchEscapeChars, jsonPatchEscapeChar, jsonPatchUnescapeChars, ih]
    · by_cases h2 : c = '/'
      · subst h2
        simp [jsonPatchEscapeChars, jsonPatchEscapeChar, jsonPatchUnescapeChars, ih]
      · simp [jsonPatchEscapeChars, jsonPatchEscapeChar, h1, h2,
          unescapeChars_cons_ne c _ h1, ih]

theorem unescape_escape (s : String) :
    jsonPatchUnescape (jsonPatchEscaperReplace s) = s := by
  show String.mk (jsonPatchUnescapeChars (jsonPatchEscapeChars s.data)) = s
  rw [unescapeChars_escapeChars]

theorem validateUpdatePairs_eq_none_iff (pod oldPod : Pod)
    (l : List AnnotationPair) :
    validateUpdatePairs pod oldPod l = none ↔
      ∀ p ∈ l, annRead pod p.nameKey = annRead oldPod p.nameKey ∧
        annRead pod p.contentsKey = annRead oldPod p.contentsKey := by
  induction l with
  | nil => simp [validateUpdatePairs]
  | cons p rest ih =>
    by_cases h1 : annRead pod p.nameKey = annRead oldPod p.nameKey
    · by_cases h2 : annRead pod p.contentsKey = annRead oldPod p.contentsKey
      · simp [validateUpdatePairs, assertAnnotationsUnchanged, h1, h2, ih]
      · simp [validateUpdatePairs, assertAnnotationsUnchanged, h1, h2]
    · simp [validateUpdatePairs, assertAnnotationsUnchanged, h1]

theorem validateUpdatePairs_error_code (pod oldPod : Pod)
    (l : List AnnotationPair) (e : AdmissionError)
    (h : validateUpdatePairs pod oldPod l = some e) : e.code = 403 := by
  induction l with
  | nil => simp [validateUpdatePairs] at h
  | cons p rest ih =>
    by_cases h1 : annRead pod p.nameKey = annRead oldPod p.nameKey
    · by_cases h2 : annRead pod p.contentsKey = annRead oldPod p.contentsKey
      · simp only [validateUpdatePairs, assertAnnotationsUnchanged, h1, h2,
          if_true, ite_self, if_pos] at h
        exact ih h
      · simp only [validateUpdatePairs, assertAnnotationsUnchanged, h1,
          if_pos, if_neg h2, Option.some.injEq] at h
        rw [← h]
    · simp only [validateUpdatePairs, assertAnnotationsUnchanged,
        if_neg h1, Option.some.injEq] at h
      rw [← h]

theorem validateUpdatePairs_congr_old (pod oldPod oldPod' : Pod)
    (l : List AnnotationPair)
    (h : ∀ p ∈ l, annRead oldPod p.nameKey = annRead oldPod' p.nameKey ∧
      annRead oldPod p.contentsKey = annRead oldPod' p.contentsKey) :
    validateUpdatePairs pod oldPod l = validateUpdatePairs pod oldPod' l := by
  induction l with
  | nil => rfl
  | cons p rest ih =>
    have hp := h p (List.mem_cons_self p rest)
    simp only [validateUpdatePairs, assertAnnotationsUnchanged, hp.1, hp.2]
    have hrest : ∀ q ∈ rest, annRead oldPod q.nameKey = annRead oldPod' q.nameKey ∧
        annRead oldPod q.contentsKey = annRead oldPod' q.contentsKey :=
      fun q hq => h q (List.mem_cons_of_mem p hq)
    rw [ih hrest]

theorem mutateSinglePair_preset (client : KubeClient) (pod : Pod)
    (p : AnnotationPair) (hp : (annLookup pod p.contentsKey).isSome) :
    mutateSinglePair client pod p = .error ⟨403, presetContentMsg p.contentsKey⟩ := by
  obtain ⟨v, hv⟩ := Option.isSome_iff_exists.mp hp
  simp [mutateSinglePair, hv]

theorem mutatePairs_preset (client : KubeClient) (pod : Pod)
    (p : AnnotationPair) (post : List AnnotationPair)
    (hp : (annLookup pod p.contentsKey).isSome) :
    ∀ pre : List AnnotationPair,
      (∃ e, mutatePairs client pod (pre ++ p :: post) = .error e) ∧
      ((∀ q ∈ pre, ∃ r, mutateSinglePair client pod q = .ok r) →
        mutatePairs client pod (pre ++ p :: post) =
          .error ⟨403, presetContentMsg p.contentsKey⟩) := by
  intro pre
  induction pre with
  | nil =>
    constructor
    · exact ⟨⟨403, presetContentMsg p.contentsKey⟩,
        by simp [mutatePairs, mutateSinglePair_preset client pod p hp]⟩
    · intro _
      simp [mutatePairs, mutateSinglePair_preset client pod p hp]
  | cons q pre' ih =>
    constructor
    · match hq : mutateSinglePair client pod q with
      | .error e => exact ⟨e, by simp [mutatePairs, hq]⟩
      | .ok r =>
        obtain ⟨e, he⟩ := ih.1
        exact ⟨e, by simp [mutatePairs, hq, he]⟩
    · intro hok
      obtain ⟨r, hr⟩ := hok q (List.mem_cons_self q pre')
      have ht := ih.2 fun x hx => hok x (List.mem_cons_of_mem q hx)
      simp [mutatePairs, hr, ht]

/-- Specification-side characterization of the patch operation the mutating
create path should produce for one annotation pair (stated from the spec's
PatchBuilder and DecisionEngine contracts): an `add` operation when the name
annotation is present and non-empty and the fetch succeeds, with the escaped
contents key as path and the fetched content as value. -/
def resolvedPatchOp (client : KubeClient) (pod : Pod) (pair : AnnotationPair) :
    Option Patch :=
  match annLookup pod pair.nameKey with
  | none => none
  | some n =>
    if n = "" then none
    else
      match client.retrieveCredSpecContents n with
      | .error _ => none
      | .ok c =>
        some ⟨"add",
          "/metadata/annotations/" ++ jsonPatchEscaperReplace pair.contentsKey, c⟩

/-- Specification-side characterization of the full patch list: one resolved
operation per annotation pair, in resolver order. -/
def resolvedPatchOps (client : KubeClient) (pod : Pod) : List Patch :=
  (iterateOverGMSAAnnotationPairs pod).filterMap (resolvedPatchOp client pod)

theorem mutatePairs_all_ok (client : KubeClient) (pod : Pod)
    (l : List AnnotationPair)
    (hc : ∀ p ∈ l, annLookup pod p.contentsKey = none)
    (hf : ∀ p ∈ l, ∀ n, annLookup pod p.nameKey = some n → n ≠ "" →
      ∃ c, client.retrieveCredSpecContents n = .ok c) :
    mutatePairs client pod l = .ok (l.filterMap (resolvedPatchOp client pod)) := by
  induction l with
  | nil => rfl
  | cons p rest ih =>
    have hcp := hc p (List.mem_cons_self p rest)
    have hrest := ih (fun q hq => hc q (List.mem_cons_of_mem p hq))
      (fun q hq => hf q (List.mem_cons_of_mem p hq))
    match hn : annLookup pod p.nameKey with
    | none => simp [mutatePairs, mutateSinglePair, resolvedPatchOp, hcp, hn, hrest]
    | some n =>
      by_cases hne : n = ""
      · simp [mutatePairs, mutateSinglePair, resolvedPatchOp, hcp, hn, hne, hrest]
      · obtain ⟨c, hcc⟩ := hf p (List.mem_cons_self p rest) n hn hne
        simp [mutatePairs, mutateSinglePair, resolvedPatchOp, hcp, hn, hne, hcc, hrest]

theorem resolvedPatchOps_length (client : KubeClient) (pod : Pod)
    (l : List AnnotationPair)
    (hf : ∀ p ∈ l, ∀ n, annLookup pod p.nameKey = some n → n ≠ "" →
      ∃ c, client.retrieveCredSpecContents n = .ok c) :
    (l.filterMap (resolvedPatchOp client pod)).length =
      (l.filter fun pair => annRead pod pair.nameKey ≠ "").length := by
  induction l with
  | nil => rfl
  | cons p rest ih =>
    have hrest := ih (fun q hq => hf q (List.mem_cons_of_mem p hq))
    match hn : annLookup pod p.nameKey with
    | none => simp [resolvedPatchOp, hn, annRead, hrest]
    | some n =>
      by_cases hne : n = ""
      · simp [resolvedPatchOp, hn, hne, annRead, hrest]
      · obtain ⟨c, hcc⟩ := hf p (List.mem_cons_self p rest) n hn hne
        simp [resolvedPatchOp, hn, hne, hcc, annRead, hrest]

/-! ### Claim theorems -/

/-- C1 (counterexample): on the Create mutation path, a pod whose container
pair has its content annotation pre-set is indeed denied, but not with kind
Forbidden: the pod-level pair is processed first and its store failure (code
500) wins, so the outcome is not independent of the state of the other
pairs as the claim asserts. -/
theorem mutateCreate_preset_not_always_forbidden :
    (∃ pair ∈ iterateOverGMSAAnnotationPairs presetPodWithEarlierFailure,
      (annLookup presetPodWithEarlierFailure pair.contentsKey).isSome) ∧
    mutateCreateRequest storeFailClient presetPodWithEarlierFailure =
      .error ⟨500, "boom"⟩ ∧
    ∀ m, mutateCreateRequest storeFailClient presetPodWithEarlierFailure ≠
      .error ⟨403, m⟩ := by
  refine ⟨by decide, by decide, ?_⟩
  intro m h
  have he : mutateCreateRequest storeFailClient presetPodWithEarlierFailure =
      .error ⟨500, "boom"⟩ := by decide
  rw [he] at h
  simp [AdmissionError.mk.injEq] at h

/-- C1 (amended): for every inbound Create request (mutation path) and every
pair with a pre-set content annotation, the request is denied with no patch
operations; the denial has kind Forbidden (403) with the pre-set reason
whenever no earlier pair in resolver order fails first (within the pair,
the pre-set check always precedes the store fetch, for every client
behavior). -/
theorem mutateCreate_preset_denies (client : KubeClient) (pod : Pod)
    (pre post : List AnnotationPair) (p : AnnotationPair)
    (hsplit : iterateOverGMSAAnnotationPairs pod = pre ++ p :: post)
    (hp : (annLookup pod p.contentsKey).isSome) :
    (∃ e, mutateCreateRequest client pod = .error e) ∧
    ((∀ q ∈ pre, ∃ r, mutateSinglePair client pod q = .ok r) →
      mutateCreateRequest client pod =
        .error ⟨403, presetContentMsg p.contentsKey⟩) := by
  have h := mutatePairs_preset client pod p post hp pre
  constructor
  · obtain ⟨e, he⟩ := h.1
    exact ⟨e, by simp [mutateCreateRequest, hsplit, he]⟩
  · intro hok
    simp [mutateCreateRequest, hsplit, h.2 hok]

/-- C1 (witness): a pod whose only annotation pre-sets the pod-level content
key is denied with 403 and the pre-set message. -/
theorem mutateCreate_preset_denies_w :
    mutateCreateRequest storeOkClient presetOnlyPod =
      .error ⟨403, presetContentMsg gMSAPodSpecContentsAnnotationKey⟩ :=
  (mutateCreate_preset_denies storeOkClient presetOnlyPod [] []
    ⟨gMSAPodSpecNameAnnotationKey, gMSAPodSpecContentsAnnotationKey⟩
    rfl (by decide)).2 (by simp)

/-- C2 (counterexample): the update check reads annotations through Go map
indexing, so a key present with the empty string on the new pod and absent
on the old pod compares as unchanged and the update is Allowed, while the
claim demands Denied for the absent-versus-present case. -/
theorem update_absent_vs_present_empty_allowed :
    annLookup updNewPod gMSAPodSpecNameAnnotationKey = some "" ∧
    annLookup updOldPod gMSAPodSpecNameAnnotationKey = none ∧
    validateUpdateRequest updNewPod updOldPod = .ok ⟨true, none⟩ := by
  refine ⟨by decide, by decide, by decide⟩

/-- C2 (amended): an Update request is Allowed iff for every tracked
annotation key (both keys of every pair derived from the new pod) the values
read with Go's map default (absent reads as the empty string) are equal
between new and old pod; in particular a key absent on one side and present
with the empty string on the other counts as unchanged. Any other outcome is
a denial with kind Forbidden (403). -/
theorem update_allowed_iff (pod oldPod : Pod) :
    (validateUpdateRequest pod oldPod = .ok ⟨true, none⟩ ↔
      ∀ p ∈ iterateOverGMSAAnnotationPairs pod,
        annRead pod p.nameKey = annRead oldPod p.nameKey ∧
        annRead pod p.contentsKey = annRead oldPod p.contentsKey) ∧
    (validateUpdateRequest pod oldPod = .ok ⟨true, none⟩ ∨
      ∃ m, validateUpdateRequest pod oldPod = .error ⟨403, m⟩) := by
  constructor
  · constructor
    · intro h
      rw [← validateUpdatePairs_eq_none_iff]
      unfold validateUpdateRequest at h
      match hv : validateUpdatePairs pod oldPod
          (iterateOverGMSAAnnotationPairs pod) with
      | none => rfl
      | some e => rw [hv] at h; exact absurd h (by simp)
    · intro h
      have hn := (validateUpdatePairs_eq_none_iff pod oldPod _).mpr h
      simp [validateUpdateRequest, hn]
  · match hv : validateUpdatePairs pod oldPod
        (iterateOverGMSAAnnotationPairs pod) with
    | none => exact Or.inl (by simp [validateUpdateRequest, hv])
    | some e =>
      refine Or.inr ?_
      obtain ⟨code, msg⟩ := e
      have hc := validateUpdatePairs_error_code pod oldPod _ _ hv
      simp only at hc
      subst hc
      exact ⟨msg, by simp [validateUpdateRequest, hv]⟩

set_option maxRecDepth 100000

/-- C3 (evaluation at the failing inputs): `isNotFoundError` slices
`msg[len(msg)-len(notFound):]`, which panics (modelled by `none`) for every
message shorter than "not found", e.g. "x"; and `isAuthorizedToReadCredSpec`
copies the identity's extra attributes into a nil map, which panics on the
first write, so any identity with a non-empty extra map aborts the engine
instead of producing a structured outcome. A long message not ending in
"not found" and an empty extra map behave normally, for contrast. -/
theorem engine_panics_on_short_store_error :
    isNotFoundError "x" = none ∧
    copyExtra [("scopes", ["admin"])] = none ∧
    isAuthorizedToReadCredSpec coreAllowClient
      ⟨"u", "", [], [("scopes", ["admin"])]⟩ createPod "spec1" = none ∧
    isNotFoundError "gmsacredentialspecs.windows.k8s.io \x22spec1\x22 not found" =
      some true ∧
    isNotFoundError "connection refused" = some false ∧
    isAuthorizedToReadCredSpec coreAllowClient defaultUserInfo createPod "spec1" =
      some (true, "") := by
  refine ⟨rfl, rfl, rfl, by decide, by decide, rfl⟩

/-- C4 (evaluation at the failing input): the combined-endpoint revision
builds the patch path from the raw contents key without `jsonPatchEscaper`,
so the produced path is not the prefix followed by the escaped key; the
revision that does use `jsonPatchEscaper` produces the escaped path, and the
escaping round-trips for every key. -/
theorem create_patch_path_unescaped :
    validateAndMutateCreateRequest coreAllowClient defaultUserInfo dynOkClient
      createPod =
      some (.ok ⟨true, some [⟨"add",
        "/metadata/annotations/pod.alpha.windows.kubernetes.io/gmsa-credential-spec",
        "\x22credspec-contents\x22"⟩]⟩) ∧
    "/metadata/annotations/pod.alpha.windows.kubernetes.io/gmsa-credential-spec" ≠
      "/metadata/annotations/" ++
        jsonPatchEscaperReplace gMSAPodSpecContentsAnnotationKey ∧
    jsonPatchEscaperReplace gMSAPodSpecContentsAnnotationKey =
      "pod.alpha.windows.kubernetes.io~1gmsa-credential-spec" ∧
    mutateCreateRequest storeOkClient createPod =
      .ok ⟨true, some [⟨"add",
        "/metadata/annotations/pod.alpha.windows.kubernetes.io~1gmsa-credential-spec",
        "contents of spec1"⟩]⟩ ∧
    (∀ s, jsonPatchUnescape (jsonPatchEscaperReplace s) = s) := by
  refine ⟨by decide, by decide, by decide, by decide, unescape_escape⟩

/-- C5: the annotation-pair resolver is a pure function of the container
list; it produces the pod-level pair with the fixed keys followed by one
pair per container, in container-list order, with the container name
prefixed to the two fixed suffixes — `len(containers) + 1` pairs in total. -/
theorem resolver_shape (pod pod' : Pod) (h : pod.containers = pod'.containers) :
    iterateOverGMSAAnnotationPairs pod = iterateOverGMSAAnnotationPairs pod' ∧
    (iterateOverGMSAAnnotationPairs pod).length = pod.containers.length + 1 ∧
    iterateOverGMSAAnnotationPairs pod =
      ⟨gMSAPodSpecNameAnnotationKey, gMSAPodSpecContentsAnnotationKey⟩ ::
        pod.containers.map (fun name =>
          ⟨name ++ gMSAContainerSpecNameAnnotationKeySuffix,
            name ++ gMSAContainerSpecContentsAnnotationKeySuffix⟩) ∧
    gMSAPodSpecNameAnnotationKey =
      "pod.alpha.windows.kubernetes.io/gmsa-credential-spec-name" ∧
    gMSAPodSpecContentsAnnotationKey =
      "pod.alpha.windows.kubernetes.io/gmsa-credential-spec" ∧
    gMSAContainerSpecNameAnnotationKeySuffix =
      ".container.alpha.windows.kubernetes.io/gmsa-credential-spec-name" ∧
    gMSAContainerSpecContentsAnnotationKeySuffix =
      ".container.alpha.windows.kubernetes.io/gmsa-credential-spec" := by
  refine ⟨?_, by simp [iterateOverGMSAAnnotationPairs], rfl, by decide, by decide,
    by decide, by decide⟩
  simp [iterateOverGMSAAnnotationPairs, h]

/-- C5 (witness): two pods sharing the container list `[nginx0]` but nothing
else resolve to the same two annotation pairs. -/
theorem resolver_shape_w :
    iterateOverGMSAAnnotationPairs resolverPodA =
      iterateOverGMSAAnnotationPairs resolverPodB ∧
    (iterateOverGMSAAnnotationPairs resolverPodA).length = 2 :=
  ⟨(resolver_shape resolverPodA resolverPodB rfl).1,
    (resolver_shape resolverPodA resolverPodB rfl).2.1⟩

/-- C6 (counterexample): a store failure whose message is shorter than
"not found" does not yield Denied(InternalError): the suffix classifier
panics (modelled by `none`), so no structured outcome at all is produced. -/
theorem fetch_error_short_message_panics :
    annLookup createPod gMSAPodSpecContentsAnnotationKey = none ∧
    annLookup createPod gMSAPodSpecNameAnnotationKey = some "spec1" ∧
    isAuthorizedToReadCredSpec coreAllowClient defaultUserInfo createPod "spec1" =
      some (true, "") ∧
    dynShortErrClient.getCredSpec "spec1" = .error "x" ∧
    validateAndInlineSingleGMSASpec coreAllowClient defaultUserInfo
      dynShortErrClient createPod gMSAPodSpecNameAnnotationKey
      gMSAPodSpecContentsAnnotationKey [] = none ∧
    ∀ r, validateAndInlineSingleGMSASpec coreAllowClient defaultUserInfo
      dynShortErrClient createPod gMSAPodSpecNameAnnotationKey
      gMSAPodSpecContentsAnnotationKey [] ≠ some r := by
  refine ⟨by decide, by decide, rfl, rfl, rfl, ?_⟩
  intro r h
  rw [show validateAndInlineSingleGMSASpec coreAllowClient defaultUserInfo
      dynShortErrClient createPod gMSAPodSpecNameAnnotationKey
      gMSAPodSpecContentsAnnotationKey [] = none from rfl] at h
  exact Option.noConfusion h

/-- C6 (amended): on the Create path, for a pair whose reference name is set
and authorized, the store fetch outcome maps deterministically to the denial
kind: a fetch error classified not-found by the suffix check yields
Denied(404 NotFound); a fetch error whose message is long enough for the
suffix check but not classified not-found yields Denied(500 InternalError)
— a message shorter than "not found" instead aborts the engine; a store
entry whose `credspec` field is absent or empty yields
Denied(417 ExpectationFailed). Each denial propagates as the error of the
whole request, so no patch operations are returned. -/
theorem fetch_error_mapping (core : CoreClient) (ui : UserInfo)
    (dyn : DynClient) (pod : Pod) (nameKey contentsKey credSpecName : String)
    (patches : List Patch) (reason : String)
    (hck : annLookup pod contentsKey = none)
    (hnk : annLookup pod nameKey = some credSpecName)
    (hne : credSpecName ≠ "")
    (hauth : isAuthorizedToReadCredSpec core ui pod credSpecName =
      some (true, reason)) :
    (∀ msg, dyn.getCredSpec credSpecName = .error msg →
      isNotFoundError msg = some true →
      validateAndInlineSingleGMSASpec core ui dyn pod nameKey contentsKey
        patches =
        some (.error ⟨404, "cred spec " ++ credSpecName ++ " does not exist"⟩)) ∧
    (∀ msg, dyn.getCredSpec credSpecName = .error msg →
      isNotFoundError msg = some false →
      validateAndInlineSingleGMSASpec core ui dyn pod nameKey contentsKey
        patches =
        some (.error ⟨500, "unable to retrieve the contents of cred spec " ++
          credSpecName ++ ": " ++ msg⟩)) ∧
    (∀ obj, dyn.getCredSpec credSpecName = .ok obj →
      (obj.credspec = none ∨ obj.credspec = some "") →
      validateAndInlineSingleGMSASpec core ui dyn pod nameKey contentsKey
        patches =
        some (.error ⟨417, "cred spec " ++ credSpecName ++
          " does not have a credspec key"⟩)) := by
  refine ⟨?_, ?_, ?_⟩
  · intro msg hmsg hnf
    simp [validateAndInlineSingleGMSASpec, hck, hnk, hne, hauth, hmsg, hnf]
  · intro msg hmsg hnf
    simp [validateAndInlineSingleGMSASpec, hck, hnk, hne, hauth, hmsg, hnf]
  · intro obj hobj hfield
    rcases hfield with hf | hf
    · simp [validateAndInlineSingleGMSASpec, hck, hnk, hne, hauth, hobj, hf]
    · simp [validateAndInlineSingleGMSASpec, hck, hnk, hne, hauth, hobj, hf]

/-- C6 (witness): with an authorized pod-level reference and a store failing
with a standard not-found message, the pair is denied with 404. -/
theorem fetch_error_mapping_w :
    validateAndInlineSingleGMSASpec coreAllowClient defaultUserInfo
      dynNotFoundClient createPod gMSAPodSpecNameAnnotationKey
      gMSAPodSpecContentsAnnotationKey [] =
      some (.error ⟨404, "cred spec spec1 does not exist"⟩) :=
  (fetch_error_mapping coreAllowClient defaultUserInfo dynNotFoundClient
      createPod gMSAPodSpecNameAnnotationKey gMSAPodSpecContentsAnnotationKey
      "spec1" [] "" (by decide) (by decide) (by decide) rfl).1
    "gmsacredentialspecs.windows.k8s.io \x22spec1\x22 not found" rfl (by decide)

theorem prefixed_reason_ne_empty (e : String) :
    "could not check authz access: " ++ e ≠ "" := by
  intro h
  have h2 := congrArg String.length h
  rw [String.length_append] at h2
  have h3 : ("could not check authz access: " : String).length = 30 := by decide
  have h4 : ("" : String).length = 0 := by decide
  omega

/-- C7: with the real service-account identity (whose extra-attribute map is
empty), a transport/API failure of the authorization gate is converted by
`isAuthorizedToReadCredSpec` into (false, "could not check authz access: "
followed by the error), and the single-spec Create step turns it into a
structured Denied with kind Forbidden (403) whose message embeds that
(always non-empty) reason; the gate is called exactly once and no retry
exists by construction. -/
theorem authz_transport_failure_denies (dyn : DynClient) (pod : Pod)
    (nameKey contentsKey credSpecName e : String) (patches : List Patch)
    (core : CoreClient)
    (hcore : ∀ ns u g uid ex n, core.createLocalSAR ns u g uid ex n = .error e)
    (hck : annLookup pod contentsKey = none)
    (hnk : annLookup pod nameKey = some credSpecName)
    (hne : credSpecName ≠ "") :
    isAuthorizedToReadCredSpec core
      (serviceaccountUserInfo pod.ns pod.serviceAccountName) pod credSpecName =
      some (false, "could not check authz access: " ++ e) ∧
    validateAndInlineSingleGMSASpec core
      (serviceaccountUserInfo pod.ns pod.serviceAccountName) dyn pod nameKey
      contentsKey patches =
      some (.error ⟨403,
        svcAcctDenialMsg credSpecName ("could not check authz access: " ++ e)⟩) ∧
    svcAcctDenialMsg credSpecName ("could not check authz access: " ++ e) =
      ("the service account used for this pod does not have \x60use\x60 access to the " ++
        credSpecName ++ " gMSA cred spec" ++ ", reason : ") ++
        ("could not check authz access: " ++ e) ∧
    (∃ a, svcAcctDenialMsg credSpecName ("could not check authz access: " ++ e) =
      a ++ ("could not check authz access: " ++ e)) := by
  have hauth : isAuthorizedToReadCredSpec core
      (serviceaccountUserInfo pod.ns pod.serviceAccountName) pod credSpecName =
      some (false, "could not check authz access: " ++ e) := by
    simp [isAuthorizedToReadCredSpec, copyExtra, serviceaccountUserInfo, hcore]
  have hshape : svcAcctDenialMsg credSpecName
      ("could not check authz access: " ++ e) =
      ("the service account used for this pod does not have \x60use\x60 access to the " ++
        credSpecName ++ " gMSA cred spec" ++ ", reason : ") ++
        ("could not check authz access: " ++ e) := by
    rw [svcAcctDenialMsg, if_neg (prefixed_reason_ne_empty e)]
  refine ⟨hauth, ?_, hshape, ⟨_, hshape⟩⟩
  simp [validateAndInlineSingleGMSASpec, hck, hnk, hne, hauth]

/-- C7 (witness): a gate whose transport always fails yields a 403 denial
whose message ends with the transport error. -/
theorem authz_transport_failure_denies_w :
    validateAndInlineSingleGMSASpec coreFailClient
      (serviceaccountUserInfo createPod.ns createPod.serviceAccountName)
      dynOkClient createPod gMSAPodSpecNameAnnotationKey
      gMSAPodSpecContentsAnnotationKey [] =
      some (.error ⟨403,
        svcAcctDenialMsg "spec1"
          ("could not check authz access: " ++ "dial tcp: connection refused")⟩) :=
  (authz_transport_failure_denies dynOkClient createPod
    gMSAPodSpecNameAnnotationKey gMSAPodSpecContentsAnnotationKey "spec1"
    "dial tcp: connection refused" [] coreFailClient
    (fun _ _ _ _ _ _ => rfl) (by decide) (by decide) (by decide)).2.1

/-- C8: on the first revision's mutating Create path, when no content
annotation is pre-set and every referenced fetch succeeds, the outcome is
Allowed with exactly one `add` patch operation per pair whose reference name
is non-empty, in resolver order, each carrying the escaped contents key as
path and the fetched content string as value, verbatim; when no pair
produced an operation the patch field is left unset (`none`), not set to an
empty list. -/
theorem mutateCreate_all_ok (client : KubeClient) (pod : Pod)
    (hc : ∀ p ∈ iterateOverGMSAAnnotationPairs pod,
      annLookup pod p.contentsKey = none)
    (hf : ∀ p ∈ iterateOverGMSAAnnotationPairs pod, ∀ n,
      annLookup pod p.nameKey = some n → n ≠ "" →
      ∃ c, client.retrieveCredSpecContents n = .ok c) :
    mutateCreateRequest client pod = .ok ⟨true,
      if (resolvedPatchOps client pod).length ≠ 0
      then some (resolvedPatchOps client pod) else none⟩ ∧
    (resolvedPatchOps client pod).length =
      ((iterateOverGMSAAnnotationPairs pod).filter fun pair =>
        annRead pod pair.nameKey ≠ "").length ∧
    (∀ patch ∈ resolvedPatchOps client pod, patch.op = "add" ∧
      ∃ pair ∈ iterateOverGMSAAnnotationPairs pod, ∃ n c,
        annLookup pod pair.nameKey = some n ∧ n ≠ "" ∧
        client.retrieveCredSpecContents n = .ok c ∧
        patch = ⟨"add",
          "/metadata/annotations/" ++ jsonPatchEscaperReplace pair.contentsKey,
          c⟩) ∧
    (pod.annotationList = [] → mutateCreateRequest client pod = .ok ⟨true, none⟩) := by
  have hmain := mutatePairs_all_ok client pod _ hc hf
  have hresp : mutateCreateRequest client pod = .ok ⟨true,
      if (resolvedPatchOps client pod).length ≠ 0
      then some (resolvedPatchOps client pod) else none⟩ := by
    simp only [mutateCreateRequest, hmain]
    rfl
  refine ⟨hresp, resolvedPatchOps_length client pod _ hf, ?_, ?_⟩
  · intro patch hm
    obtain ⟨pair, hpair, hsome⟩ := List.mem_filterMap.mp hm
    match hn : annLookup pod pair.nameKey with
    | none => simp [resolvedPatchOp, hn] at hsome
    | some n =>
      by_cases hne : n = ""
      · simp [resolvedPatchOp, hn, hne] at hsome
      · match hcc : client.retrieveCredSpecContents n with
        | .error err => simp [resolvedPatchOp, hn, hne, hcc] at hsome
        | .ok c =>
          have hval : resolvedPatchOp client pod pair =
              some ⟨"add",
                "/metadata/annotations/" ++ jsonPatchEscaperReplace pair.contentsKey,
                c⟩ := by
            simp [resolvedPatchOp, hn, hne, hcc]
          rw [hval, Option.some.injEq] at hsome
          exact ⟨by rw [← hsome], pair, hpair, n, c, hn, hne, hcc, hsome.symm⟩
  · intro hempty
    have hall : ∀ k, annLookup pod k = none := by
      intro k
      simp [annLookup, hempty]
    have hops : resolvedPatchOps client pod = [] := by
      rw [resolvedPatchOps, List.filterMap_eq_nil_iff]
      intro pair _
      simp [resolvedPatchOp, hall pair.nameKey]
    rw [hresp, hops]
    rfl

/-- C8 (witness): a pod with a pod-level and a container-level reference
yields Allowed with exactly the two fetched contents as patch values, and a
pod with no annotations at all yields Allowed with the patch field unset. -/
theorem mutateCreate_all_ok_w :
    mutateCreateRequest storeOkClient fullPod = .ok ⟨true, some
      [⟨"add",
        "/metadata/annotations/pod.alpha.windows.kubernetes.io~1gmsa-credential-spec",
        "contents of spec1"⟩,
       ⟨"add",
        "/metadata/annotations/nginx0.container.alpha.windows.kubernetes.io~1gmsa-credential-spec",
        "contents of spec2"⟩]⟩ ∧
    mutateCreateRequest storeOkClient emptyPod = .ok ⟨true, none⟩ := by
  constructor
  · have h := (mutateCreate_all_ok storeOkClient fullPod (by decide)
      (fun p hp n hn hne => ⟨"contents of " ++ n, rfl⟩)).1
    rw [h]
    rfl
  · exact (mutateCreate_all_ok storeOkClient emptyPod (by decide)
      (fun p hp n hn hne => ⟨"contents of " ++ n, rfl⟩)).2.2.2 rfl

theorem validateUpdateRequest_ok_shape (pod oldPod : Pod)
    (resp : AdmissionResponse)
    (h : validateUpdateRequest pod oldPod = .ok resp) : resp = ⟨true, none⟩ := by
  unfold validateUpdateRequest at h
  match hv : validateUpdatePairs pod oldPod
      (iterateOverGMSAAnnotationPairs pod) with
  | none =>
    rw [hv] at h
    exact (Except.ok.injEq _ _ ▸ h).symm
  | some e =>
    rw [hv] at h
    exact absurd h (by simp)

/-- C9: on an Update request the decision is a pure comparison of the two
decoded pods: the outcome of `validateOrMutate` is identical under any two
client behaviors (so neither the authorization gate nor the credential
store can influence it), on both endpoints, and any Allowed outcome carries
no patch operations. -/
theorem update_pure_comparison (c1 c2 : KubeClient)
    (request : AdmissionRequest) (h : request.operation = .update) :
    (∀ op, validateOrMutate c1 request op = validateOrMutate c2 request op) ∧
    (∀ op resp, validateOrMutate c1 request op = .ok resp →
      resp.patch = none) := by
  constructor
  · intro op
    simp only [validateOrMutate, h]
  · intro op resp hr
    by_cases hk : request.kind ≠ "Pod"
    · simp only [validateOrMutate, if_pos hk] at hr
      exact absurd hr (by simp)
    · simp only [validateOrMutate, if_neg hk, h] at hr
      match ho : request.object with
      | none =>
        rw [ho] at hr
        exact absurd hr (by simp)
      | some pod =>
        rw [ho] at hr
        match op with
        | .validate =>
          match hold : request.oldObject with
          | none =>
            rw [hold] at hr
            exact absurd hr (by simp)
          | some oldPod =>
            rw [hold] at hr
            have := validateUpdateRequest_ok_shape pod oldPod resp hr
            rw [this]
        | .mutate =>
          simp only [Except.ok.injEq] at hr
          rw [← hr]

/-- C9 (witness): a well-formed Update request evaluates identically under
the always-failing store and the always-succeeding store, and its Allowed
outcome has no patch. -/
theorem update_pure_comparison_w :
    validateOrMutate storeFailClient
      ⟨"Pod", .update, some updNewPod, some updOldPod, "ns"⟩ .validate =
      validateOrMutate storeOkClient
        ⟨"Pod", .update, some updNewPod, some updOldPod, "ns"⟩ .validate ∧
    (⟨true, none⟩ : AdmissionResponse).patch = none :=
  ⟨(update_pure_comparison storeFailClient storeOkClient
      ⟨"Pod", .update, some updNewPod, some updOldPod, "ns"⟩ rfl).1 .validate,
    (update_pure_comparison storeFailClient storeOkClient
      ⟨"Pod", .update, some updNewPod, some updOldPod, "ns"⟩ rfl).2 .validate
      ⟨true, none⟩ (by decide)⟩

/-- C10: the set of annotation keys compared on update is derived solely
from the new pod's container list: two old pods agreeing on the tracked keys
of the new pod (with Go's absent-reads-as-empty semantics) produce the same
decision, whatever their other annotations — in particular keys of
containers present only in the old pod are never compared — and agreement of
new and old on all tracked keys yields Allowed. -/
theorem update_keys_from_new_pod (newPod oldPod oldPod' : Pod)
    (hagree : ∀ p ∈ iterateOverGMSAAnnotationPairs newPod,
      annRead oldPod p.nameKey = annRead oldPod' p.nameKey ∧
      annRead oldPod p.contentsKey = annRead oldPod' p.contentsKey) :
    validateUpdateRequest newPod oldPod = validateUpdateRequest newPod oldPod' ∧
    ((∀ p ∈ iterateOverGMSAAnnotationPairs newPod,
        annRead newPod p.nameKey = annRead oldPod p.nameKey ∧
        annRead newPod p.contentsKey = annRead oldPod p.contentsKey) →
      validateUpdateRequest newPod oldPod = .ok ⟨true, none⟩) := by
  constructor
  · unfold validateUpdateRequest
    rw [validateUpdatePairs_congr_old newPod oldPod oldPod' _ hagree]
  · intro hsame
    have hn := (validateUpdatePairs_eq_none_iff newPod oldPod _).mpr hsame
    simp [validateUpdateRequest, hn]

/-- C10 (witness): the old pod has a `legacy` container absent from the new
pod; its tracked-style name annotation differs between the two old pods and
from the new pod, yet the decision is the same and the update is Allowed. -/
theorem update_keys_from_new_pod_w :
    validateUpdateRequest newPodW oldPodW = validateUpdateRequest newPodW oldPodW2 ∧
    validateUpdateRequest newPodW oldPodW = .ok ⟨true, none⟩ :=
  ⟨(update_keys_from_new_pod newPodW oldPodW oldPodW2 (by decide)).1,
    (update_keys_from_new_pod newPodW oldPodW oldPodW2 (by decide)).2 (by decide)⟩

end GMSAWebhook
